import Mathlib

/-!
Verification of the workflow lifecycle and multi-backend upload coordinator
of magic-nix-cache (src/magic-nix-cache/src/api.rs).

The embedding models the three handlers `workflow_start`, `workflow_finish`
and `post_enqueue_paths` (with the shared helper `enqueue_paths`) as
computations in a monad `M` that threads the mutable session state (the
Rust `State` behind shared references with interior mutability), records a
trace of the externally observable calls (backend enqueues, backend drains,
the shutdown-signal send and the logfile read), and short-circuits on the
first error exactly as Rust's question-mark operator does.  External
collaborators (the store-path resolver, the store enumeration, the two
backends, the oneshot sender and the logfile read), whose code is outside
the analysed file, are injected as deterministic outcome fields of the
state so that every definition is executable.
-/

namespace MagicNixCache

/-- Error kinds constructed in api.rs: `Error::Attic` (resolver and store
errors), `Error::Internal` (the shutdown-send failure message) and the
io error from reading the logfile (converted via `From`). -/
inductive Error where
  | attic (message : String)
  | internal (message : String)
  | io (message : String)
deriving DecidableEq, Repr

/-- Modelled from the spec: the GitHub Actions cache backend (external to
api.rs).  It exposes `enqueue(paths) -> accepted-or-error` and a one-shot
`shutdown() -> drained-or-error`; here each is injected as its
deterministic outcome. -/
structure GhaCache where
  enqueue_paths : List String → Except Error Unit
  shutdown : Except Error Unit

/-- Modelled from the spec: the FlakeHub backend state (external to
api.rs).  `enqueue_paths` is the fan-out call `crate::flakehub::enqueue_paths`;
`push_session_wait` is `push_session.wait()`, returning the list of
uploaded paths once the drain completes. -/
structure FlakehubState where
  enqueue_paths : List String → Except Error Unit
  push_session_wait : Except Error (List String)

/-- Modelled from the spec: the store-path resolver.
`follow_store_path` resolves one identifier to a canonical store path
(`resolve(identifier) -> CanonicalPath | Error`, the attic error carried
as a string); `get_store_paths` is `crate::util::get_store_paths`, the
enumeration of all paths currently in the store
(`enumerate() -> Set<CanonicalPath> | Error`). -/
structure Store where
  follow_store_path : String → Except String String
  get_store_paths : Except Error (Finset String)

/-- The session state of api.rs: the live snapshot `original_paths`
(behind a mutex in Rust), the store handle, the two optional backends,
the one-shot shutdown sender (the `Option` inside the mutex; the sender
carries its send outcome, `Except Unit Unit`, since `send` fails when the
receiver is gone) and the outcome of reading the tracing logfile. -/
structure SessionState where
  original_paths : Finset String
  store : Store
  gha_cache : Option GhaCache
  shutdown_sender : Option (Except Unit Unit)
  flakehub_state : Option FlakehubState
  read_logfile : Except String String

/-- Externally observable calls made by the handlers, in program order. -/
inductive Event where
  | ghaEnqueueCall (paths : List String)
  | flakehubEnqueueCall (paths : List String)
  | ghaShutdownCall
  | signalSend
  | flakehubWaitCall
  | logfileRead
deriving DecidableEq, Repr

/-- The handler monad: state threading (interior mutability survives an
early error return), an event trace, and short-circuiting on `Except`
exactly like Rust's question-mark operator. -/
def M (α : Type) : Type :=
  SessionState → Except Error α × SessionState × List Event

def M.pure (a : α) : M α := fun s => (Except.ok a, s, [])

def M.bind (x : M α) (f : α → M β) : M β := fun s =>
  match x s with
  | (Except.error e, s1, tr) => (Except.error e, s1, tr)
  | (Except.ok a, s1, tr) =>
    match f a s1 with
    | (r, s2, tr2) => (r, s2, tr ++ tr2)

instance : Monad M where
  pure := M.pure
  bind := M.bind

/-- Read the current session state. -/
def getState : M SessionState := fun s => (Except.ok s, s, [])

/-- Replace the session state. -/
def setState (s1 : SessionState) : M Unit := fun _ => (Except.ok (), s1, [])

/-- Lift a fallible result, as the question-mark operator does. -/
def liftE (r : Except Error α) : M α := fun s => (r, s, [])

/-- An external call: record the event, then propagate the outcome. -/
def callE (e : Event) (r : Except Error α) : M α := fun s => (r, s, [e])

/-- Map the error of an `Except`, as Rust's `map_err`. -/
def exceptMapError (f : ε → δ) : Except ε α → Except δ α
  | Except.ok a => Except.ok a
  | Except.error e => Except.error (f e)

/-- The resolution loop of `post_enqueue_paths` (and of the diff step in
`workflow_finish`): `iter().map(follow_store_path).collect::<Result<Vec>>()`,
failing fast at the first identifier that does not resolve. -/
def resolveAll (store : Store) : List String → Except Error (List String)
  | [] => Except.ok []
  | p :: ps =>
    match exceptMapError Error.attic (store.follow_store_path p) with
    | Except.error e => Except.error e
    | Except.ok q =>
      match resolveAll store ps with
      | Except.error e => Except.error e
      | Except.ok qs => Except.ok (q :: qs)

structure WorkflowStartResponse where
  num_original_paths : Nat
deriving DecidableEq, Repr

structure WorkflowFinishResponse where
  num_original_paths : Nat
  num_final_paths : Nat
  num_new_paths : Nat
deriving DecidableEq, Repr

structure EnqueuePathsResponse where
deriving DecidableEq, Repr

/-- The fan-out helper `enqueue_paths` of api.rs: call the GitHub Actions
backend if configured (propagating its error), then the FlakeHub backend
if configured (propagating its error). -/
def enqueue_paths (store_paths : List String) : M Unit := do
  let st ← getState
  (match st.gha_cache with
   | some gha =>
     callE (Event.ghaEnqueueCall store_paths) (gha.enqueue_paths store_paths)
   | none => pure ())
  let st2 ← getState
  (match st2.flakehub_state with
   | some fh =>
     callE (Event.flakehubEnqueueCall store_paths) (fh.enqueue_paths store_paths)
   | none => pure ())

/-- The handler `post_enqueue_paths`: resolve every identifier of the
request (failing fast), then fan out the resolved list. -/
def post_enqueue_paths (req_store_paths : List String) : M EnqueuePathsResponse := do
  let st ← getState
  let store_paths ← liftE (resolveAll st.store req_store_paths)
  enqueue_paths store_paths
  pure {}

/-- The handler `workflow_start`: enumerate the store and replace the
snapshot wholesale; on enumeration failure the snapshot is untouched. -/
def workflow_start : M WorkflowStartResponse := do
  let st ← getState
  let paths ← liftE st.store.get_store_paths
  setState { st with original_paths := paths }
  pure { num_original_paths := paths.card }

/-- The diff-and-resolve step of `workflow_finish` (api.rs lines 59-63):
`final_paths.difference(&original_paths)` collected and mapped through
`follow_store_path`.  The set difference is listed in sorted order (the
hash-set iteration order is unspecified; any enumeration of the
difference is faithful). -/
def compute_new_paths (store : Store) (original_paths final_paths : Finset String) :
    Except Error (List String) :=
  resolveAll store (Finset.sort (· ≤ ·) (final_paths \ original_paths))

/-- The handler `workflow_finish`: read the snapshot, re-enumerate, diff
and resolve, fan out the new paths, drain the GitHub Actions backend,
take and fire the shutdown sender, take and drain the FlakeHub backend,
read back the logfile, and only then return the counts report.  Every
step propagates its error exactly as the question-mark operator does. -/
def workflow_finish : M WorkflowFinishResponse := do
  let st ← getState
  let original_paths := st.original_paths
  let final_paths ← liftE st.store.get_store_paths
  let new_paths ← liftE (compute_new_paths st.store original_paths final_paths)
  let num_original_paths := original_paths.card
  let num_final_paths := final_paths.card
  let num_new_paths := new_paths.length
  enqueue_paths new_paths
  let st2 ← getState
  (match st2.gha_cache with
   | some gha => callE Event.ghaShutdownCall gha.shutdown
   | none => pure ())
  let st3 ← getState
  let sender := st3.shutdown_sender
  setState { st3 with shutdown_sender := none }
  (match sender with
   | some send_result =>
     callE Event.signalSend
       (exceptMapError
         (fun _ => Error.internal "Sending shutdown server message") send_result)
   | none => pure ())
  let st4 ← getState
  let fh := st4.flakehub_state
  setState { st4 with flakehub_state := none }
  (match fh with
   | some attic_state => do
     let _paths ← callE Event.flakehubWaitCall attic_state.push_session_wait
     pure ()
   | none => pure ())
  let st5 ← getState
  let _logfile_contents ← callE Event.logfileRead (exceptMapError Error.io st5.read_logfile)
  pure { num_original_paths, num_final_paths, num_new_paths }

/-! Concrete fixtures used by counterexamples and witnesses. -/

/-- A resolver that maps every identifier to itself (all paths already
canonical, as the spec assumes for paths coming out of the store). -/
def identityFollow : String → Except String String := fun p => Except.ok p

/-- A GitHub Actions backend whose calls all succeed. -/
def okGha : GhaCache :=
  { enqueue_paths := fun _ => Except.ok (), shutdown := Except.ok () }

/-- A FlakeHub backend whose calls all succeed. -/
def okFh : FlakehubState :=
  { enqueue_paths := fun _ => Except.ok (), push_session_wait := Except.ok [] }

/-- A GitHub Actions backend whose enqueue always fails. -/
def enqFailGha : GhaCache :=
  { enqueue_paths := fun _ => Except.error (Error.attic "GHA enqueue failed")
  , shutdown := Except.ok () }

/-- A GitHub Actions backend whose drain fails. -/
def drainFailGha : GhaCache :=
  { enqueue_paths := fun _ => Except.ok ()
  , shutdown := Except.error (Error.attic "GHA drain failed") }

/-- Build a session state over the identity resolver with the given
snapshot, store contents, backends, sender and logfile outcome. -/
def mkState (orig final : Finset String) (gha : Option GhaCache)
    (sender : Option (Except Unit Unit)) (fh : Option FlakehubState)
    (log : Except String String) : SessionState :=
  { original_paths := orig
  , store := { follow_store_path := identityFollow, get_store_paths := Except.ok final }
  , gha_cache := gha
  , shutdown_sender := sender
  , flakehub_state := fh
  , read_logfile := log }

/-! States used by the counterexamples and witnesses of the claims. -/

/-- Enqueue-time state with a failing GitHub Actions backend and a
healthy FlakeHub backend. -/
def c1State : SessionState :=
  mkState ∅ ∅ (some enqFailGha) none (some okFh) (Except.ok "")

/-- Finish-time state whose GitHub Actions drain fails while the
FlakeHub backend is configured and healthy. -/
def c2State : SessionState :=
  mkState {"a"} {"a"} (some drainFailGha) (some (Except.ok ())) (some okFh) (Except.ok "log")

/-- Finish-time state in which every external call succeeds. -/
def c3State : SessionState :=
  mkState {"a"} {"a", "b"} (some okGha) (some (Except.ok ())) (some okFh) (Except.ok "log")

/-- All-success finish-time state with an empty diff. -/
def c4State : SessionState :=
  mkState {"a"} {"a"} (some okGha) (some (Except.ok ())) (some okFh) (Except.ok "log")

/-- Enqueue-time state with two healthy backends. -/
def c6State : SessionState :=
  mkState ∅ ∅ (some okGha) none (some okFh) (Except.ok "")

/-- A resolver that fails on the identifier "bad" and resolves every
other identifier to itself. -/
def badFollow : String → Except String String := fun p =>
  if p = "bad" then Except.error "not a store path: bad" else Except.ok p

/-- Enqueue-time state whose resolver rejects the identifier "bad". -/
def c7State : SessionState :=
  { original_paths := ∅
  , store := { follow_store_path := badFollow, get_store_paths := Except.ok ∅ }
  , gha_cache := some okGha
  , shutdown_sender := none
  , flakehub_state := some okFh
  , read_logfile := Except.ok "" }

/-- Finish-time state whose shutdown receiver is gone, so the send of
the shutdown notification fails. -/
def c8State : SessionState :=
  mkState {"a"} {"a"} (some okGha) (some (Except.error ())) (some okFh) (Except.ok "log")

/-- Start-time state whose store enumerates to a singleton. -/
def c9State : SessionState :=
  mkState ∅ {"a"} none none none (Except.ok "")

/-- A second store, enumerating to a different singleton, installed
between two start calls. -/
def c9Store2 : Store :=
  { follow_store_path := identityFollow, get_store_paths := Except.ok {"b"} }

/-- Finish-time state where every upload, drain and the notification
succeed but the logfile read fails. -/
def c10State : SessionState :=
  mkState {"a"} {"a"} (some okGha) (some (Except.ok ()))
    (some okFh) (Except.error "No such file or directory")

/-! Helper lemmas. -/

/-- If every identifier of a list resolves to itself, `resolveAll`
returns the list unchanged. -/
theorem resolveAll_id (store : Store) (l : List String)
    (h : ∀ p ∈ l, store.follow_store_path p = Except.ok p) :
    resolveAll store l = Except.ok l := by
  induction l with
  | nil => rfl
  | cons p ps ih =>
    have hp := h p (List.mem_cons_self p ps)
    have hps := ih fun q hq => h q (List.mem_cons_of_mem p hq)
    simp [resolveAll, hp, hps, exceptMapError]

/-- If every identifier of a prefix resolves and the next identifier
fails, `resolveAll` fails with that identifier's error. -/
theorem resolveAll_append_error (store : Store) (pre : List String)
    (ident : String) (rest : List String) (e : String)
    (hpre : ∀ p ∈ pre, (store.follow_store_path p).isOk = true)
    (hid : store.follow_store_path ident = Except.error e) :
    resolveAll store (pre ++ ident :: rest) = Except.error (Error.attic e) := by
  induction pre with
  | nil => simp [resolveAll, hid, exceptMapError]
  | cons p ps ih =>
    have hp := hpre p (List.mem_cons_self p ps)
    have hps := ih fun q hq => hpre q (List.mem_cons_of_mem p hq)
    rcases hq : store.follow_store_path p with e2 | q
    · rw [hq] at hp; simp [Except.isOk, Except.toBool] at hp
    · simp [resolveAll, hq, hps, exceptMapError]

/-- Listing a finset in sorted order and collecting it back gives the
same finset. -/
theorem sort_toFinset (s : Finset String) :
    (Finset.sort (· ≤ ·) s).toFinset = s := by
  ext a
  simp [List.mem_toFinset, Finset.mem_sort]

/-- Characterization of a fully successful `workflow_finish` run: the
exact result, the exact final state (sender and FlakeHub state taken)
and the exact event trace, in program order. -/
theorem finish_success_run (st : SessionState) (final : Finset String)
    (new_paths : List String) (gha : GhaCache) (fh : FlakehubState)
    (uploaded : List String) (log : String)
    (henum : st.store.get_store_paths = Except.ok final)
    (hnew : compute_new_paths st.store st.original_paths final = Except.ok new_paths)
    (hg : st.gha_cache = some gha)
    (hf : st.flakehub_state = some fh)
    (hge : gha.enqueue_paths new_paths = Except.ok ())
    (hfe : fh.enqueue_paths new_paths = Except.ok ())
    (hshut : gha.shutdown = Except.ok ())
    (hsend : st.shutdown_sender = some (Except.ok ()))
    (hwait : fh.push_session_wait = Except.ok uploaded)
    (hlog : st.read_logfile = Except.ok log) :
    workflow_finish st = (Except.ok
      { num_original_paths := st.original_paths.card
      , num_final_paths := final.card
      , num_new_paths := new_paths.length },
      { st with shutdown_sender := none, flakehub_state := none },
      [Event.ghaEnqueueCall new_paths, Event.flakehubEnqueueCall new_paths,
       Event.ghaShutdownCall, Event.signalSend, Event.flakehubWaitCall,
       Event.logfileRead]) := by
  simp [workflow_finish, enqueue_paths, M.bind, M.pure, getState, setState, liftE, callE,
    Bind.bind, Pure.pure, exceptMapError, henum, hnew, hg, hf, hge, hfe, hshut, hsend,
    hwait, hlog]

/-- A finish started with the shutdown sender already taken never emits
a shutdown notification, whatever else happens during the run. -/
theorem signalSend_not_mem (st : SessionState) (h : st.shutdown_sender = none) :
    Event.signalSend ∉ (workflow_finish st).2.2 := by
  obtain ⟨orig, ⟨follow, gsp⟩, ghaO, sendO, fhO, logE⟩ := st
  change sendO = none at h
  subst h
  rcases gsp with e | final
  · simp [workflow_finish, M.bind, Bind.bind, liftE, getState, M.pure, Pure.pure]
  · rcases hnew : compute_new_paths
        ⟨follow, Except.ok final⟩ orig final with e | new_paths
    · simp [workflow_finish, hnew, M.bind, Bind.bind, liftE,
        getState, M.pure, Pure.pure]
    · rcases ghaO with _ | ⟨genq, gshut⟩
      · rcases fhO with _ | ⟨fenq, fwait⟩
        · rcases logE with e | s <;>
            simp [workflow_finish, hnew, enqueue_paths, M.bind, Bind.bind, liftE,
              getState, setState, callE, M.pure, Pure.pure, exceptMapError]
        · rcases hfe : fenq new_paths with e | _
          · simp [workflow_finish, hnew, enqueue_paths, M.bind, Bind.bind, liftE,
              getState, setState, callE, M.pure, Pure.pure, exceptMapError, hfe]
          · rcases fwait with e | up <;>
              rcases logE with e2 | s <;>
              simp [workflow_finish, hnew, enqueue_paths, M.bind, Bind.bind, liftE,
                getState, setState, callE, M.pure, Pure.pure, exceptMapError, hfe]
      · rcases hge : genq new_paths with e | _
        · simp [workflow_finish, hnew, enqueue_paths, M.bind, Bind.bind, liftE,
            getState, setState, callE, M.pure, Pure.pure, exceptMapError, hge]
        · rcases fhO with _ | ⟨fenq, fwait⟩
          · rcases gshut with e2 | _
            · simp [workflow_finish, hnew, enqueue_paths, M.bind, Bind.bind, liftE,
                getState, setState, callE, M.pure, Pure.pure, exceptMapError, hge]
            · rcases logE with e3 | s <;>
                simp [workflow_finish, hnew, enqueue_paths, M.bind, Bind.bind, liftE,
                  getState, setState, callE, M.pure, Pure.pure, exceptMapError, hge]
          · rcases hfe : fenq new_paths with e | _
            · simp [workflow_finish, hnew, enqueue_paths, M.bind, Bind.bind, liftE,
                getState, setState, callE, M.pure, Pure.pure, exceptMapError, hge, hfe]
            · rcases gshut with e2 | _
              · simp [workflow_finish, hnew, enqueue_paths, M.bind, Bind.bind, liftE,
                  getState, setState, callE, M.pure, Pure.pure, exceptMapError, hge, hfe]
              · rcases fwait with e3 | up <;>
                  rcases logE with e4 | s <;>
                  simp [workflow_finish, hnew, enqueue_paths, M.bind, Bind.bind, liftE,
                    getState, setState, callE, M.pure, Pure.pure, exceptMapError, hge, hfe]

/-- Whenever `workflow_finish` returns a reply, the reply is exactly the
counts computed from the snapshot, the enumeration and the diff, no
matter how the later steps went. -/
theorem finish_ok_reply (st : SessionState) (final : Finset String)
    (new_paths : List String)
    (henum : st.store.get_store_paths = Except.ok final)
    (hnew : compute_new_paths st.store st.original_paths final = Except.ok new_paths) :
    ∀ r, (workflow_finish st).1 = Except.ok r →
      r = { num_original_paths := st.original_paths.card
          , num_final_paths := final.card
          , num_new_paths := new_paths.length } := by
  obtain ⟨orig, ⟨follow, gsp⟩, ghaO, sendO, fhO, logE⟩ := st
  change gsp = Except.ok final at henum
  subst henum
  rcases ghaO with _ | ⟨genq, gshut⟩
  · rcases fhO with _ | ⟨fenq, fwait⟩
    · rcases sendO with _ | (_ | _) <;> rcases logE with e | s <;>
        simp [workflow_finish, hnew, enqueue_paths, M.bind, Bind.bind, liftE, getState,
          setState, callE, M.pure, Pure.pure, exceptMapError]
    · rcases hfe : fenq new_paths with e | _
      · simp [workflow_finish, hnew, enqueue_paths, M.bind, Bind.bind, liftE, getState,
          setState, callE, M.pure, Pure.pure, exceptMapError, hfe]
      · rcases sendO with _ | (_ | _) <;> rcases fwait with e | up <;>
          rcases logE with e2 | s <;>
          simp [workflow_finish, hnew, enqueue_paths, M.bind, Bind.bind, liftE, getState,
            setState, callE, M.pure, Pure.pure, exceptMapError, hfe]
  · rcases hge : genq new_paths with e | _
    · simp [workflow_finish, hnew, enqueue_paths, M.bind, Bind.bind, liftE, getState,
        setState, callE, M.pure, Pure.pure, exceptMapError, hge]
    · rcases fhO with _ | ⟨fenq, fwait⟩
      · rcases gshut with e2 | _
        · simp [workflow_finish, hnew, enqueue_paths, M.bind, Bind.bind, liftE, getState,
            setState, callE, M.pure, Pure.pure, exceptMapError, hge]
        · rcases sendO with _ | (_ | _) <;> rcases logE with e3 | s <;>
            simp [workflow_finish, hnew, enqueue_paths, M.bind, Bind.bind, liftE, getState,
              setState, callE, M.pure, Pure.pure, exceptMapError, hge]
      · rcases hfe : fenq new_paths with e | _
        · simp [workflow_finish, hnew, enqueue_paths, M.bind, Bind.bind, liftE, getState,
            setState, callE, M.pure, Pure.pure, exceptMapError, hge, hfe]
        · rcases gshut with e2 | _
          · simp [workflow_finish, hnew, enqueue_paths, M.bind, Bind.bind, liftE, getState,
              setState, callE, M.pure, Pure.pure, exceptMapError, hge, hfe]
          · rcases sendO with _ | (_ | _) <;> rcases fwait with e3 | up <;>
              rcases logE with e4 | s <;>
              simp [workflow_finish, hnew, enqueue_paths, M.bind, Bind.bind, liftE, getState,
                setState, callE, M.pure, Pure.pure, exceptMapError, hge, hfe]


/-! Claim theorems. -/

/-- C1 counterexample: with the GitHub Actions backend failing its
enqueue and the FlakeHub backend configured, the batch is NOT handed to
the FlakeHub backend — the first backend's failure prevents the second
from receiving the batch, and the error is returned without the other
backend having been attempted, contrary to the claim. -/
theorem c1_counterexample :
    c1State.flakehub_state = some okFh ∧
    (enqueue_paths ["p"] c1State).1 = Except.error (Error.attic "GHA enqueue failed") ∧
    Event.flakehubEnqueueCall ["p"] ∉ (enqueue_paths ["p"] c1State).2.2 := by
  refine ⟨rfl, ?_, ?_⟩ <;>
    simp [enqueue_paths, c1State, mkState, enqFailGha, okFh, M.bind, Bind.bind,
      liftE, getState, callE, M.pure, Pure.pure]

/-- C1 (amended): fan-out is sequential, GitHub Actions first and
FlakeHub second, and short-circuits: a GitHub Actions enqueue failure is
returned immediately and the FlakeHub backend does not receive the
batch; only when the GitHub Actions enqueue succeeds is the batch handed
to the FlakeHub backend, whose own result is then the call's result. -/
theorem c1_theorem (st : SessionState) (paths : List String)
    (gha : GhaCache) (fh : FlakehubState)
    (hg : st.gha_cache = some gha) (hf : st.flakehub_state = some fh) :
    (∀ e, gha.enqueue_paths paths = Except.error e →
      enqueue_paths paths st = (Except.error e, st, [Event.ghaEnqueueCall paths])) ∧
    (gha.enqueue_paths paths = Except.ok () →
      enqueue_paths paths st =
        (fh.enqueue_paths paths, st,
         [Event.ghaEnqueueCall paths, Event.flakehubEnqueueCall paths])) := by
  constructor
  · intro e he
    simp [enqueue_paths, M.bind, Bind.bind, liftE, getState, callE, M.pure,
      Pure.pure, hg, hf, he]
  · intro hok
    rcases hfe : fh.enqueue_paths paths with e | u
    · simp [enqueue_paths, M.bind, Bind.bind, liftE, getState, callE, M.pure,
        Pure.pure, hg, hf, hok, hfe]
    · cases u
      simp [enqueue_paths, M.bind, Bind.bind, liftE, getState, callE, M.pure,
        Pure.pure, hg, hf, hok, hfe]

/-- C1 witness: the amended behaviour at a concrete state — the failing
GitHub Actions enqueue aborts the fan-out before the FlakeHub backend is
called. -/
theorem c1_witness :
    c1State.gha_cache = some enqFailGha ∧
    enqueue_paths ["p"] c1State =
      (Except.error (Error.attic "GHA enqueue failed"), c1State,
       [Event.ghaEnqueueCall ["p"]]) :=
  ⟨rfl, (c1_theorem c1State ["p"] enqFailGha okFh rfl rfl).1
    (Error.attic "GHA enqueue failed") rfl⟩

/-- C2 counterexample: the GitHub Actions drain failure makes finish
return at once — the configured FlakeHub backend's drain is never
attempted, contrary to the claim that all drains are attempted before
the first failure is returned. -/
theorem c2_counterexample :
    c2State.flakehub_state = some okFh ∧
    (workflow_finish c2State).1 = Except.error (Error.attic "GHA drain failed") ∧
    Event.flakehubWaitCall ∉ (workflow_finish c2State).2.2 := by
  have hnew : compute_new_paths
      { follow_store_path := identityFollow, get_store_paths := Except.ok {"a"} }
      {"a"} {"a"} = Except.ok [] := by
    simp [compute_new_paths, Finset.sdiff_self, Finset.sort_empty, resolveAll]
  refine ⟨rfl, ?_, ?_⟩ <;>
    simp [workflow_finish, enqueue_paths, M.bind, Bind.bind, liftE, getState, setState,
      callE, M.pure, Pure.pure, exceptMapError, hnew, c2State, mkState, drainFailGha,
      okFh]

/-- C2 (amended): the drains of finish are sequential and
short-circuiting: when the GitHub Actions drain fails, its error is
returned immediately, the FlakeHub drain is never attempted and the
shutdown signal is not consumed (the state is unchanged). -/
theorem c2_theorem (st : SessionState) (final : Finset String)
    (new_paths : List String) (gha : GhaCache) (fh : FlakehubState) (e : Error)
    (henum : st.store.get_store_paths = Except.ok final)
    (hnew : compute_new_paths st.store st.original_paths final = Except.ok new_paths)
    (hg : st.gha_cache = some gha)
    (hf : st.flakehub_state = some fh)
    (hge : gha.enqueue_paths new_paths = Except.ok ())
    (hfe : fh.enqueue_paths new_paths = Except.ok ())
    (hshut : gha.shutdown = Except.error e) :
    workflow_finish st = (Except.error e, st,
      [Event.ghaEnqueueCall new_paths, Event.flakehubEnqueueCall new_paths,
       Event.ghaShutdownCall]) := by
  simp [workflow_finish, enqueue_paths, M.bind, M.pure, getState, setState, liftE,
    callE, Bind.bind, Pure.pure, henum, hnew, hg, hf, hge, hfe, hshut]

/-- C2 witness: the amended behaviour at a concrete state — the failing
GitHub Actions drain aborts finish before the FlakeHub drain. -/
theorem c2_witness :
    workflow_finish c2State =
      (Except.error (Error.attic "GHA drain failed"), c2State,
       [Event.ghaEnqueueCall [], Event.flakehubEnqueueCall [],
        Event.ghaShutdownCall]) :=
  c2_theorem c2State {"a"} [] drainFailGha okFh (Error.attic "GHA drain failed")
    rfl
    (by simp [compute_new_paths, c2State, mkState, Finset.sdiff_self,
      Finset.sort_empty, resolveAll])
    rfl rfl rfl rfl rfl

/-- C3: the diff computed by finish is exactly the set difference of the
final enumeration minus the snapshot — a subset of the final set and
disjoint from the original set — and the reported num_new_paths is its
cardinality (assuming, as the spec does, that paths coming out of the
store enumeration resolve to themselves). -/
theorem c3_theorem (st : SessionState) (final : Finset String)
    (henum : st.store.get_store_paths = Except.ok final)
    (hres : ∀ p ∈ final \ st.original_paths,
      st.store.follow_store_path p = Except.ok p) :
    compute_new_paths st.store st.original_paths final =
      Except.ok (Finset.sort (· ≤ ·) (final \ st.original_paths)) ∧
    (Finset.sort (· ≤ ·) (final \ st.original_paths)).toFinset =
      final \ st.original_paths ∧
    (Finset.sort (· ≤ ·) (final \ st.original_paths)).toFinset ⊆ final ∧
    Disjoint (Finset.sort (· ≤ ·) (final \ st.original_paths)).toFinset
      st.original_paths ∧
    (Finset.sort (· ≤ ·) (final \ st.original_paths)).length =
      (final \ st.original_paths).card ∧
    ∀ r, (workflow_finish st).1 = Except.ok r →
      r.num_new_paths = (final \ st.original_paths).card := by
  have hsorted : ∀ p ∈ Finset.sort (· ≤ ·) (final \ st.original_paths),
      st.store.follow_store_path p = Except.ok p := by
    intro p hp
    exact hres p ((Finset.mem_sort (α := String) (· ≤ ·)).mp hp)
  have hcomp : compute_new_paths st.store st.original_paths final =
      Except.ok (Finset.sort (· ≤ ·) (final \ st.original_paths)) :=
    resolveAll_id st.store _ hsorted
  have hfin := sort_toFinset (final \ st.original_paths)
  refine ⟨hcomp, hfin, ?_, ?_, Finset.length_sort _, ?_⟩
  · rw [hfin]; exact Finset.sdiff_subset
  · rw [hfin]; exact Finset.sdiff_disjoint
  · intro r hr
    have := finish_ok_reply st final _ henum hcomp r hr
    rw [this]
    simp [Finset.length_sort]

/-- C3 witness: the diff properties at a concrete state whose store
gained one path between start and finish. -/
theorem c3_witness :
    compute_new_paths c3State.store c3State.original_paths {"a", "b"} =
      Except.ok (Finset.sort (· ≤ ·) (({"a", "b"} : Finset String) \ c3State.original_paths)) ∧
    (Finset.sort (· ≤ ·) (({"a", "b"} : Finset String) \ c3State.original_paths)).toFinset =
      ({"a", "b"} : Finset String) \ c3State.original_paths ∧
    (Finset.sort (· ≤ ·) (({"a", "b"} : Finset String) \ c3State.original_paths)).toFinset ⊆
      ({"a", "b"} : Finset String) ∧
    Disjoint
      (Finset.sort (· ≤ ·) (({"a", "b"} : Finset String) \ c3State.original_paths)).toFinset
      c3State.original_paths ∧
    (Finset.sort (· ≤ ·) (({"a", "b"} : Finset String) \ c3State.original_paths)).length =
      (({"a", "b"} : Finset String) \ c3State.original_paths).card ∧
    ∀ r, (workflow_finish c3State).1 = Except.ok r →
      r.num_new_paths = (({"a", "b"} : Finset String) \ c3State.original_paths).card :=
  c3_theorem c3State {"a", "b"} rfl (fun _ _ => rfl)


/-- C4 counterexample: a fully successful finish in which the shutdown
notification (trace position 3) is sent BEFORE the FlakeHub drain wait
(trace position 4) — so not every backend drain completes before the
ShutdownSignal is consumed, contrary to the claim. -/
theorem c4_counterexample :
    (workflow_finish c4State).1 = Except.ok
      { num_original_paths := 1, num_final_paths := 1, num_new_paths := 0 } ∧
    (workflow_finish c4State).2.2.get? 3 = some Event.signalSend ∧
    (workflow_finish c4State).2.2.get? 4 = some Event.flakehubWaitCall := by
  have hnew : compute_new_paths
      { follow_store_path := identityFollow, get_store_paths := Except.ok {"a"} }
      {"a"} {"a"} = Except.ok [] := by
    simp [compute_new_paths, Finset.sdiff_self, Finset.sort_empty, resolveAll]
  refine ⟨?_, ?_, ?_⟩ <;>
    simp [workflow_finish, enqueue_paths, M.bind, Bind.bind, liftE, getState, setState,
      callE, M.pure, Pure.pure, exceptMapError, hnew, c4State, mkState, okGha, okFh]

/-- C4 (amended): in every successful finish the GitHub Actions drain
(trace position 2) completes before the ShutdownSignal is consumed
(position 3), but the FlakeHub drain wait happens AFTER the shutdown
notification has been sent (position 4). -/
theorem c4_theorem (st : SessionState) (final : Finset String)
    (new_paths : List String) (gha : GhaCache) (fh : FlakehubState)
    (uploaded : List String) (log : String)
    (henum : st.store.get_store_paths = Except.ok final)
    (hnew : compute_new_paths st.store st.original_paths final = Except.ok new_paths)
    (hg : st.gha_cache = some gha)
    (hf : st.flakehub_state = some fh)
    (hge : gha.enqueue_paths new_paths = Except.ok ())
    (hfe : fh.enqueue_paths new_paths = Except.ok ())
    (hshut : gha.shutdown = Except.ok ())
    (hsend : st.shutdown_sender = some (Except.ok ()))
    (hwait : fh.push_session_wait = Except.ok uploaded)
    (hlog : st.read_logfile = Except.ok log) :
    workflow_finish st = (Except.ok
      { num_original_paths := st.original_paths.card
      , num_final_paths := final.card
      , num_new_paths := new_paths.length },
      { st with shutdown_sender := none, flakehub_state := none },
      [Event.ghaEnqueueCall new_paths, Event.flakehubEnqueueCall new_paths,
       Event.ghaShutdownCall, Event.signalSend, Event.flakehubWaitCall,
       Event.logfileRead]) ∧
    (workflow_finish st).2.2.get? 2 = some Event.ghaShutdownCall ∧
    (workflow_finish st).2.2.get? 3 = some Event.signalSend ∧
    (workflow_finish st).2.2.get? 4 = some Event.flakehubWaitCall := by
  have h := finish_success_run st final new_paths gha fh uploaded log henum hnew hg
    hf hge hfe hshut hsend hwait hlog
  refine ⟨h, ?_, ?_, ?_⟩ <;> rw [h] <;> rfl

/-- C4 witness: the amended ordering at a concrete all-success state. -/
theorem c4_witness :
    workflow_finish c4State = (Except.ok
      { num_original_paths := Finset.card {"a"}
      , num_final_paths := Finset.card {"a"}
      , num_new_paths := List.length ([] : List String) },
      { c4State with shutdown_sender := none, flakehub_state := none },
      [Event.ghaEnqueueCall [], Event.flakehubEnqueueCall [],
       Event.ghaShutdownCall, Event.signalSend, Event.flakehubWaitCall,
       Event.logfileRead]) ∧
    (workflow_finish c4State).2.2.get? 2 = some Event.ghaShutdownCall ∧
    (workflow_finish c4State).2.2.get? 3 = some Event.signalSend ∧
    (workflow_finish c4State).2.2.get? 4 = some Event.flakehubWaitCall :=
  c4_theorem c4State {"a"} [] okGha okFh [] "log" rfl
    (by simp [compute_new_paths, c4State, mkState, Finset.sdiff_self,
      Finset.sort_empty, resolveAll])
    rfl rfl rfl rfl rfl rfl rfl rfl

/-- C5: once a finish has taken and fired the shutdown signal, the
sender is gone from the resulting state, and any subsequent finish — no
matter how it goes — observes the signal as already taken and never
sends a second notification. -/
theorem c5_theorem (st : SessionState) (final : Finset String)
    (new_paths : List String) (gha : GhaCache) (fh : FlakehubState)
    (uploaded : List String) (log : String)
    (henum : st.store.get_store_paths = Except.ok final)
    (hnew : compute_new_paths st.store st.original_paths final = Except.ok new_paths)
    (hg : st.gha_cache = some gha)
    (hf : st.flakehub_state = some fh)
    (hge : gha.enqueue_paths new_paths = Except.ok ())
    (hfe : fh.enqueue_paths new_paths = Except.ok ())
    (hshut : gha.shutdown = Except.ok ())
    (hsend : st.shutdown_sender = some (Except.ok ()))
    (hwait : fh.push_session_wait = Except.ok uploaded)
    (hlog : st.read_logfile = Except.ok log) :
    Event.signalSend ∈ (workflow_finish st).2.2 ∧
    (workflow_finish st).2.1.shutdown_sender = none ∧
    Event.signalSend ∉ (workflow_finish (workflow_finish st).2.1).2.2 := by
  have h := finish_success_run st final new_paths gha fh uploaded log henum hnew hg
    hf hge hfe hshut hsend hwait hlog
  refine ⟨?_, ?_, ?_⟩
  · rw [h]; simp
  · rw [h]
  · rw [h]
    exact signalSend_not_mem _ rfl

/-- C5 witness: consume-once at a concrete all-success state. -/
theorem c5_witness :
    Event.signalSend ∈ (workflow_finish c4State).2.2 ∧
    (workflow_finish c4State).2.1.shutdown_sender = none ∧
    Event.signalSend ∉ (workflow_finish (workflow_finish c4State).2.1).2.2 :=
  c5_theorem c4State {"a"} [] okGha okFh [] "log" rfl
    (by simp [compute_new_paths, c4State, mkState, Finset.sdiff_self,
      Finset.sort_empty, resolveAll])
    rfl rfl rfl rfl rfl rfl rfl rfl

/-- C6 counterexample: an enqueue with the empty path list is NOT a
no-op toward the backends — both configured backends receive an enqueue
call (with the empty batch), contrary to the claim that no backend
receives a call. -/
theorem c6_counterexample :
    c6State.gha_cache = some okGha ∧
    c6State.flakehub_state = some okFh ∧
    (enqueue_paths [] c6State).2.2 =
      [Event.ghaEnqueueCall [], Event.flakehubEnqueueCall []] ∧
    (enqueue_paths [] c6State).1 = Except.ok () := by
  refine ⟨rfl, rfl, ?_, ?_⟩ <;>
    simp [enqueue_paths, c6State, mkState, okGha, okFh, M.bind, Bind.bind, liftE,
      getState, callE, M.pure, Pure.pure]

/-- C6 (amended): an enqueue with an empty path list succeeds and leaves
the state unchanged, but each configured backend's enqueue is still
invoked, with the empty batch. -/
theorem c6_theorem (st : SessionState) (gha : GhaCache) (fh : FlakehubState)
    (hg : st.gha_cache = some gha) (hf : st.flakehub_state = some fh)
    (hge : gha.enqueue_paths [] = Except.ok ())
    (hfe : fh.enqueue_paths [] = Except.ok ()) :
    enqueue_paths [] st =
      (Except.ok (), st, [Event.ghaEnqueueCall [], Event.flakehubEnqueueCall []]) := by
  simp [enqueue_paths, M.bind, Bind.bind, liftE, getState, callE, M.pure, Pure.pure,
    hg, hf, hge, hfe]

/-- C6 witness: the amended behaviour at a concrete two-backend state. -/
theorem c6_witness :
    enqueue_paths [] c6State =
      (Except.ok (), c6State, [Event.ghaEnqueueCall [], Event.flakehubEnqueueCall []]) :=
  c6_theorem c6State okGha okFh rfl rfl rfl rfl


/-- C7: if any identifier of an enqueue request fails to resolve, the
whole call fails with the resolver's error for the first failing
identifier, the state is unchanged and NO backend receives any call (the
trace is empty) — resolved or not, no path of the request is handed to
any backend. -/
theorem c7_theorem (st : SessionState) (pre : List String) (ident : String)
    (rest : List String) (e : String)
    (hpre : ∀ p ∈ pre, (st.store.follow_store_path p).isOk = true)
    (hid : st.store.follow_store_path ident = Except.error e) :
    post_enqueue_paths (pre ++ ident :: rest) st =
      (Except.error (Error.attic e), st, []) := by
  have h := resolveAll_append_error st.store pre ident rest e hpre hid
  simp [post_enqueue_paths, M.bind, Bind.bind, liftE, getState, M.pure, Pure.pure, h]

/-- C7 witness: a three-identifier request whose middle identifier fails
to resolve at a concrete state with both backends configured. -/
theorem c7_witness :
    post_enqueue_paths (["a"] ++ "bad" :: ["c"]) c7State =
      (Except.error (Error.attic "not a store path: bad"), c7State, []) :=
  c7_theorem c7State ["a"] "bad" ["c"] "not a store path: bad"
    (by decide) rfl

/-- C8 counterexample: when the shutdown notification cannot be
delivered (the receiver is gone), finish ESCALATES: it returns an
internal error, and the configured FlakeHub backend's drain and the
final report are skipped, contrary to the claim that a SignalError is
non-fatal. -/
theorem c8_counterexample :
    c8State.flakehub_state = some okFh ∧
    (workflow_finish c8State).1 =
      Except.error (Error.internal "Sending shutdown server message") ∧
    Event.flakehubWaitCall ∉ (workflow_finish c8State).2.2 ∧
    Event.logfileRead ∉ (workflow_finish c8State).2.2 := by
  have hnew : compute_new_paths
      { follow_store_path := identityFollow, get_store_paths := Except.ok {"a"} }
      {"a"} {"a"} = Except.ok [] := by
    simp [compute_new_paths, Finset.sdiff_self, Finset.sort_empty, resolveAll]
  refine ⟨rfl, ?_, ?_, ?_⟩ <;>
    simp [workflow_finish, enqueue_paths, M.bind, Bind.bind, liftE, getState, setState,
      callE, M.pure, Pure.pure, exceptMapError, hnew, c8State, mkState, okGha, okFh]

/-- C8 (amended): a failed shutdown-notification send is escalated to an
internal error that aborts finish: the sender is still consumed, but the
FlakeHub drain and the final report are skipped and the error is
returned to the caller.  (Only an already-absent sender is silently
skipped.) -/
theorem c8_theorem (st : SessionState) (final : Finset String)
    (new_paths : List String) (gha : GhaCache) (fh : FlakehubState)
    (henum : st.store.get_store_paths = Except.ok final)
    (hnew : compute_new_paths st.store st.original_paths final = Except.ok new_paths)
    (hg : st.gha_cache = some gha)
    (hf : st.flakehub_state = some fh)
    (hge : gha.enqueue_paths new_paths = Except.ok ())
    (hfe : fh.enqueue_paths new_paths = Except.ok ())
    (hshut : gha.shutdown = Except.ok ())
    (hsend : st.shutdown_sender = some (Except.error ())) :
    workflow_finish st =
      (Except.error (Error.internal "Sending shutdown server message"),
       { st with shutdown_sender := none },
       [Event.ghaEnqueueCall new_paths, Event.flakehubEnqueueCall new_paths,
        Event.ghaShutdownCall, Event.signalSend]) := by
  simp [workflow_finish, enqueue_paths, M.bind, M.pure, getState, setState, liftE,
    callE, Bind.bind, Pure.pure, exceptMapError, henum, hnew, hg, hf, hge, hfe,
    hshut, hsend]

/-- C8 witness: the amended escalation at a concrete state whose
shutdown receiver is gone. -/
theorem c8_witness :
    workflow_finish c8State =
      (Except.error (Error.internal "Sending shutdown server message"),
       { c8State with shutdown_sender := none },
       [Event.ghaEnqueueCall [], Event.flakehubEnqueueCall [],
        Event.ghaShutdownCall, Event.signalSend]) :=
  c8_theorem c8State {"a"} [] okGha okFh rfl
    (by simp [compute_new_paths, c8State, mkState, Finset.sdiff_self,
      Finset.sort_empty, resolveAll])
    rfl rfl rfl rfl rfl rfl

/-- C9: each start call wholesale-replaces the snapshot with its own
fresh enumeration: after two starts with no finish in between (the store
contents having changed in between), exactly the second enumeration is
live — never a union or any accumulation of the two. -/
theorem c9_theorem (st : SessionState) (A B : Finset String) (store2 : Store)
    (h1 : st.store.get_store_paths = Except.ok A)
    (h2 : store2.get_store_paths = Except.ok B) :
    workflow_start st =
      (Except.ok { num_original_paths := A.card },
       { st with original_paths := A }, []) ∧
    workflow_start { st with original_paths := A, store := store2 } =
      (Except.ok { num_original_paths := B.card },
       { st with original_paths := B, store := store2 }, []) := by
  constructor <;>
    simp [workflow_start, M.bind, Bind.bind, liftE, getState, setState, M.pure,
      Pure.pure, h1, h2]

/-- C9 witness: two consecutive starts over stores enumerating to
different singletons leave exactly the second singleton as the live
snapshot. -/
theorem c9_witness :
    workflow_start c9State =
      (Except.ok { num_original_paths := Finset.card {"a"} },
       { c9State with original_paths := {"a"} }, []) ∧
    workflow_start { c9State with original_paths := {"a"}, store := c9Store2 } =
      (Except.ok { num_original_paths := Finset.card {"b"} },
       { c9State with original_paths := {"b"}, store := c9Store2 }, []) :=
  c9_theorem c9State {"a"} {"b"} c9Store2 rfl rfl

/-- C10: after every upload, both drains and the shutdown notification
have succeeded, finish still reads the tracing logfile, and a failure of
that read makes finish return the io error to the caller instead of the
counts report. -/
theorem c10_theorem (st : SessionState) (final : Finset String)
    (new_paths : List String) (gha : GhaCache) (fh : FlakehubState)
    (uploaded : List String) (msg : String)
    (henum : st.store.get_store_paths = Except.ok final)
    (hnew : compute_new_paths st.store st.original_paths final = Except.ok new_paths)
    (hg : st.gha_cache = some gha)
    (hf : st.flakehub_state = some fh)
    (hge : gha.enqueue_paths new_paths = Except.ok ())
    (hfe : fh.enqueue_paths new_paths = Except.ok ())
    (hshut : gha.shutdown = Except.ok ())
    (hsend : st.shutdown_sender = some (Except.ok ()))
    (hwait : fh.push_session_wait = Except.ok uploaded)
    (hlog : st.read_logfile = Except.error msg) :
    workflow_finish st =
      (Except.error (Error.io msg),
       { st with shutdown_sender := none, flakehub_state := none },
       [Event.ghaEnqueueCall new_paths, Event.flakehubEnqueueCall new_paths,
        Event.ghaShutdownCall, Event.signalSend, Event.flakehubWaitCall,
        Event.logfileRead]) := by
  simp [workflow_finish, enqueue_paths, M.bind, M.pure, getState, setState, liftE,
    callE, Bind.bind, Pure.pure, exceptMapError, henum, hnew, hg, hf, hge, hfe,
    hshut, hsend, hwait, hlog]

/-- C10 witness: the logfile-read failure at a concrete state in which
every other step succeeded. -/
theorem c10_witness :
    workflow_finish c10State =
      (Except.error (Error.io "No such file or directory"),
       { c10State with shutdown_sender := none, flakehub_state := none },
       [Event.ghaEnqueueCall [], Event.flakehubEnqueueCall [],
        Event.ghaShutdownCall, Event.signalSend, Event.flakehubWaitCall,
        Event.logfileRead]) :=
  c10_theorem c10State {"a"} [] okGha okFh [] "No such file or directory" rfl
    (by simp [compute_new_paths, c10State, mkState, Finset.sdiff_self,
      Finset.sort_empty, resolveAll])
    rfl rfl rfl rfl rfl rfl rfl rfl


end MagicNixCache
